import Mathlib

/-!
Verification development for the pc-bench system benchmark.

The repository consists of a worker script (`src/worker.js`), a hardware
query adapter and multithread orchestrator (class `SystemTester`), and a
top-level pipeline `testAll` (`src/test-all.ts`).

Embedding conventions:
* JavaScript numbers are idealized as rationals (`ℚ`); the logical core
  count handed to the worker-pool loop is a natural number.
* The `systeminformation` provider is a record of the fields the code
  reads (`si.cpu()`, `si.graphics().controllers[0]`, `si.mem()`,
  `si.diskLayout()[0]`, `si.networkStats()[0]`, `si.cpuTemperature()`).
* A worker thread is a function from its input message (its index) to
  `Except WorkerError ℚ`: either it replies with a number or it raises.
* `Promise.all` is modelled by `collectAll`: it yields the list of all
  replies, or the first error in index order if any worker raises.
* `try`/`catch` in `testAll` is modelled by running the body to an
  `Except` value and mapping both branches to a resolved promise.
-/

/-- An error raised by the hardware-information provider. -/
structure ProviderError where
  msg : String
deriving DecidableEq

/-- An error raised by a benchmark worker. -/
structure WorkerError where
  msg : String
deriving DecidableEq

/-- Which validation group of `testAll` rejected the snapshot. -/
inductive ValidationError where
  | invalidCpu
  | invalidGpu
  | invalidRam
deriving DecidableEq

/-- Any error thrown inside the `try` block of `testAll`. -/
inductive TestError where
  | provider (e : ProviderError)
  | validation (e : ValidationError)
  | worker (e : WorkerError)
  | invalidPerformance
deriving DecidableEq

/-! ## Data model (the interfaces of `src/worker.js`) -/

/-- Per-core detail record (interface `CpuCoreInfo`). -/
structure CpuCoreInfo where
  logicalCores : Nat
  frequency : ℚ
  load : Option ℚ
deriving DecidableEq

/-- CPU snapshot (interface `CpuInfo`). -/
structure CpuInfo where
  manufacturer : String
  brand : String
  speed : ℚ
  cores : ℚ
  physicalCores : ℚ
  processors : ℚ
  coresInfo : List CpuCoreInfo
deriving DecidableEq

/-- GPU snapshot (interface `GpuInfo`). -/
structure GpuInfo where
  manufacturer : String
  model : String
  memoryTotal : ℚ
  memoryUsed : ℚ
  memoryFree : ℚ
deriving DecidableEq

/-- RAM snapshot in GB (interface `RamInfo`). -/
structure RamInfo where
  total : ℚ
  free : ℚ
  used : ℚ
deriving DecidableEq

/-- Disk snapshot (interface `DiskInfo`; the optional used/free fields are
commented out in the source). -/
structure DiskInfo where
  size : ℚ
  type : String
deriving DecidableEq

/-- Network snapshot (interface `NetworkInfo`). -/
structure NetworkInfo where
  speed : ℚ
  interface : String
deriving DecidableEq

/-- Full system snapshot (interface `SystemInfo`). -/
structure SystemInfo where
  cpu : CpuInfo
  gpu : GpuInfo
  ram : RamInfo
  disk : DiskInfo
  network : NetworkInfo
deriving DecidableEq

/-- Report record (interface `PerformanceTestResult`). -/
structure PerformanceTestResult where
  cpuFrequency : ℚ
  gpuPerformance : ℚ
  ramSpeed : ℚ
  diskSpeed : ℚ
  multiThreadPerformance : ℚ
deriving DecidableEq

/-! ## Worker task (`performTask` in `src/worker.js`)

```js
function performTask(input) {
  let sum = 0;
  for (let i = 0; i < 1e10; i++) {
    sum += i + input;
  }
  return sum;
}
```
-/

/-- State of the accumulator of `performTask` after `k` loop iterations:
iteration `i` (for `i = 0, 1, ...`) adds `i + input`. -/
def loopSum (input : ℚ) : Nat → ℚ
  | 0 => 0
  | k + 1 => loopSum input k + (k + input)

/-- `performTask input` runs the loop for its fixed bound `1e10 = 10^10`
iterations and returns the final accumulator. -/
def performTask (input : ℚ) : ℚ := loopSum input (10 ^ 10)

/-! ## Hardware query adapter (`SystemTester.getSystemInfo`) -/

/-- The fields the code reads from `si.cpu()`. -/
structure ProviderCpu where
  manufacturer : String
  brand : String
  speed : ℚ
  cores : ℚ
  physicalCores : ℚ
  processors : ℚ
deriving DecidableEq

/-- The fields the code reads from `si.graphics().controllers[0]`.
Raw GPU memory values are in MB. -/
structure ProviderGpuController where
  vendor : String
  model : String
  memoryTotal : ℚ
  memoryUsed : ℚ
  memoryFree : ℚ
deriving DecidableEq

/-- The fields the code reads from `si.mem()`, in bytes. -/
structure ProviderMem where
  total : ℚ
  free : ℚ
deriving DecidableEq

/-- The fields the code reads from `si.diskLayout()[0]`; `size` in bytes. -/
structure ProviderDisk where
  size : ℚ
  type : String
deriving DecidableEq

/-- The fields the code reads from `si.networkStats()[0]`. -/
structure ProviderNet where
  ms : ℚ
  iface : String
deriving DecidableEq

/-- One full provider response, as consumed by `getSystemInfo`.
`tempMax` is the iteration bound of the `coresInfo` loop (the code uses
`si.cpuTemperature().max`), `tempCoresLen` the length of its `cores`
array and `tempSocket` its `socket` array. -/
structure ProviderData where
  cpu : ProviderCpu
  gpuController0 : ProviderGpuController
  mem : ProviderMem
  disk0 : ProviderDisk
  net0 : ProviderNet
  tempMax : Nat
  tempCoresLen : Nat
  tempSocket : Nat → Option ℚ

/-- JavaScript `a || b` on numbers: `b` when `a` is falsy (zero), else `a`. -/
def jsOr (a b : ℚ) : ℚ := if a = 0 then b else a

/-- The `coresInfo` push loop of `getSystemInfo`:
`for (let i = 0; i < cpuCores.max; i++) cpuInfo.coresInfo.push({...})`. -/
def buildCoresInfo (speed : ℚ) (coresLen : Nat) (socket : Nat → Option ℚ) :
    Nat → List CpuCoreInfo
  | 0 => []
  | n + 1 => buildCoresInfo speed coresLen socket n ++ [⟨coresLen, speed, socket n⟩]

/-- `SystemTester.getSystemInfo`, as a pure function of the provider
response.  Faithful to the source, including the unparenthesized
`x || 0 / 1024` on the GPU memory fields, which JavaScript parses as
`x || (0 / 1024)`. -/
def getSystemInfo (p : ProviderData) : SystemInfo :=
  { cpu :=
      { manufacturer := p.cpu.manufacturer
        brand := p.cpu.brand
        speed := p.cpu.speed
        cores := p.cpu.cores
        physicalCores := p.cpu.physicalCores
        processors := p.cpu.processors
        coresInfo := buildCoresInfo p.cpu.speed p.tempCoresLen p.tempSocket p.tempMax }
    gpu :=
      { manufacturer := p.gpuController0.vendor
        model := p.gpuController0.model
        memoryTotal := jsOr p.gpuController0.memoryTotal (0 / 1024)
        memoryUsed := jsOr p.gpuController0.memoryUsed (0 / 1024)
        memoryFree := jsOr p.gpuController0.memoryFree (0 / 1024) }
    ram :=
      { total := p.mem.total / 1024 ^ 3
        free := p.mem.free / 1024 ^ 3
        used := (p.mem.total - p.mem.free) / 1024 ^ 3 }
    disk :=
      { size := p.disk0.size / 1024 ^ 3
        type := p.disk0.type }
    network :=
      { speed := p.net0.ms
        interface := p.net0.iface } }

/-! ## Worker pool orchestrator (`SystemTester.testMultiThreadPerformance`) -/

/-- `const numCores = cpu.cores || 1`: the logical core count, defaulting
to 1 when the provider value is falsy. -/
def effectiveCores (cores : Nat) : Nat := if cores = 0 then 1 else cores

/-- The spawn loop `for (let i = 0; i < numCores; i++) push(spawn i)`:
the list of input messages posted to the workers, in spawn order. -/
def spawnIndices : Nat → List Nat
  | 0 => []
  | n + 1 => spawnIndices n ++ [n]

/-- `Promise.all` over the worker replies: all replies in index order, or
the first error if any worker raises. -/
def collectAll (worker : Nat → Except WorkerError ℚ) :
    List Nat → Except WorkerError (List ℚ)
  | [] => Except.ok []
  | i :: rest =>
    match worker i with
    | Except.error e => Except.error e
    | Except.ok r =>
      match collectAll worker rest with
      | Except.error e => Except.error e
      | Except.ok rs => Except.ok (r :: rs)

/-- `SystemTester.testMultiThreadPerformance`, parametrized by the
provider-reported core count and by the behaviour of a worker on its
input message.  Sums the replies with
`results.reduce((sum, result) => sum + result, 0)`. -/
def testMultiThreadPerformance (cores : Nat)
    (worker : Nat → Except WorkerError ℚ) : Except WorkerError ℚ :=
  match collectAll worker (spawnIndices (effectiveCores cores)) with
  | Except.error e => Except.error e
  | Except.ok results => Except.ok (results.foldl (fun sum result => sum + result) 0)

/-! ## Top-level pipeline (`testAll` in `src/test-all.ts`) -/

/-- Condition of the first `throw` of `testAll`: a falsy (empty) CPU
manufacturer or brand, or a non-positive speed, core count or physical
core count. -/
def cpuDataInvalid (info : SystemInfo) : Prop :=
  info.cpu.manufacturer = "" ∨ info.cpu.brand = "" ∨ info.cpu.speed ≤ 0 ∨
    info.cpu.cores ≤ 0 ∨ info.cpu.physicalCores ≤ 0

instance (info : SystemInfo) : Decidable (cpuDataInvalid info) := by
  unfold cpuDataInvalid; infer_instance

/-- Condition of the second `throw` of `testAll`: a falsy (empty) GPU
manufacturer or model. -/
def gpuDataInvalid (info : SystemInfo) : Prop :=
  info.gpu.manufacturer = "" ∨ info.gpu.model = ""

instance (info : SystemInfo) : Decidable (gpuDataInvalid info) := by
  unfold gpuDataInvalid; infer_instance

/-- Condition of the third `throw` of `testAll`: non-positive RAM total,
negative RAM free, or non-positive RAM used. -/
def ramDataInvalid (info : SystemInfo) : Prop :=
  info.ram.total ≤ 0 ∨ info.ram.free < 0 ∨ info.ram.used ≤ 0

instance (info : SystemInfo) : Decidable (ramDataInvalid info) := by
  unfold ramDataInvalid; infer_instance

/-- The three validation groups of `testAll`, in source order, stopping at
the first violated group. -/
def validate (info : SystemInfo) : Except ValidationError Unit :=
  if cpuDataInvalid info then
    Except.error ValidationError.invalidCpu
  else if gpuDataInvalid info then
    Except.error ValidationError.invalidGpu
  else if ramDataInvalid info then
    Except.error ValidationError.invalidRam
  else
    Except.ok ()

/-- Trace of one run of the `try` block of `testAll`: whether the
multithread benchmark was reached, and the result or the thrown error. -/
structure TestTrace where
  benchRan : Bool
  outcome : Except TestError PerformanceTestResult

/-- The `try` block of `testAll`: query the provider, validate, run the
multithread benchmark, check the sum is positive, assemble the report
with the fixed placeholder constants 100 / 3200 / 500. -/
def testAllBody (infoRes : Except ProviderError SystemInfo)
    (bench : Except WorkerError ℚ) : TestTrace :=
  match infoRes with
  | Except.error e => ⟨false, Except.error (TestError.provider e)⟩
  | Except.ok info =>
    match validate info with
    | Except.error e => ⟨false, Except.error (TestError.validation e)⟩
    | Except.ok _ =>
      match bench with
      | Except.error e => ⟨true, Except.error (TestError.worker e)⟩
      | Except.ok m =>
        if m ≤ 0 then ⟨true, Except.error TestError.invalidPerformance⟩
        else
          ⟨true, Except.ok
            { cpuFrequency := info.cpu.speed
              gpuPerformance := 100
              ramSpeed := 3200
              diskSpeed := 500
              multiThreadPerformance := m }⟩

/-- Outcome of the promise returned by an async function. -/
inductive PromiseOutcome (α : Type) where
  | resolved (a : α)
  | rejected (e : TestError)
deriving DecidableEq

/-- `testAll` itself: the `try` block wrapped in the `catch` that only
logs the error to the console.  The resolved value records which error,
if any, was logged. -/
def testAll (infoRes : Except ProviderError SystemInfo)
    (bench : Except WorkerError ℚ) : PromiseOutcome (Option TestError) :=
  match (testAllBody infoRes bench).outcome with
  | Except.ok _ => PromiseOutcome.resolved none
  | Except.error e => PromiseOutcome.resolved (some e)

/-! ## Helper lemmas -/

theorem spawnIndices_eq_range (n : Nat) : spawnIndices n = List.range n := by
  induction n with
  | zero => rfl
  | succ k ih => rw [spawnIndices, ih, List.range_succ]

theorem collectAll_ok (r : Nat → ℚ) (l : List Nat) :
    collectAll (fun i => Except.ok (r i)) l = Except.ok (l.map r) := by
  induction l with
  | nil => rfl
  | cons i rest ih => simp [collectAll, ih]

theorem collectAll_error_of_mem (worker : Nat → Except WorkerError ℚ)
    (l : List Nat) (j : Nat) (e : WorkerError) (hj : j ∈ l)
    (he : worker j = Except.error e) :
    ∃ e2, collectAll worker l = Except.error e2 := by
  induction l with
  | nil => cases hj
  | cons i rest ih =>
    rcases List.mem_cons.mp hj with h | h
    · subst h
      exact ⟨e, by simp [collectAll, he]⟩
    · rcases ih h with ⟨e2, h2⟩
      cases hw : worker i with
      | error e3 => exact ⟨e3, by simp [collectAll, hw]⟩
      | ok r => exact ⟨e2, by simp [collectAll, hw, h2]⟩

theorem foldl_add_map_range (r : Nat → ℚ) :
    ∀ (n : Nat) (s : ℚ),
      ((List.range n).map r).foldl (fun sum result => sum + result) s =
        s + ∑ i in Finset.range n, r i
  | 0, s => by simp
  | n + 1, s => by
    rw [List.range_succ, List.map_append, List.foldl_append,
      foldl_add_map_range r n s, Finset.sum_range_succ]
    simp [add_assoc]

theorem one_le_effectiveCores (cores : Nat) : 1 ≤ effectiveCores cores := by
  unfold effectiveCores
  split <;> omega

theorem effectiveCores_of_pos (cores : Nat) (h : 1 ≤ cores) :
    effectiveCores cores = cores := by
  unfold effectiveCores
  split <;> omega

theorem loopSum_closed (x : ℚ) :
    ∀ k : Nat, 2 * loopSum x k = 2 * (k : ℚ) * x + (k : ℚ) * ((k : ℚ) - 1)
  | 0 => by simp [loopSum]
  | k + 1 => by
    have ih := loopSum_closed x k
    rw [loopSum]
    push_cast
    ring_nf
    ring_nf at ih
    linarith

theorem performTask_pos (i : Nat) : 0 < performTask (i : ℚ) := by
  have h := loopSum_closed (i : ℚ) (10 ^ 10)
  have hi : (0 : ℚ) ≤ (i : ℚ) := Nat.cast_nonneg i
  have hk : ((10 ^ 10 : Nat) : ℚ) = 10 ^ 10 := by push_cast; ring
  rw [hk] at h
  unfold performTask
  nlinarith

/-- `Promise` rejection test on the `Except` model of an async call. -/
def isRejection {ε α : Type} : Except ε α → Bool
  | Except.error _ => true
  | Except.ok _ => false

theorem testMultiThread_ok_sum (cores : Nat) (r : Nat → ℚ) :
    testMultiThreadPerformance cores (fun i => Except.ok (r i)) =
      Except.ok (∑ i in Finset.range (effectiveCores cores), r i) := by
  unfold testMultiThreadPerformance
  rw [spawnIndices_eq_range, collectAll_ok]
  simp [foldl_add_map_range]

/-! ## Sample data used by the witnesses -/

/-- A provider response with all fields valid; RAM total 16384 MB and
free 8192 MB, in bytes. -/
def ramSampleProvider : ProviderData :=
  { cpu := ⟨"Intel", "Core i7", 3, 8, 4, 1⟩
    gpuController0 := ⟨"NVIDIA", "RTX 3060", 8192, 2048, 6144⟩
    mem := ⟨16384 * 1024 ^ 2, 8192 * 1024 ^ 2⟩
    disk0 := ⟨512 * 1024 ^ 3, "SSD"⟩
    net0 := ⟨10, "eth0"⟩
    tempMax := 0
    tempCoresLen := 0
    tempSocket := fun _ => none }

/-- A provider response whose GPU controller reports 1024 MB of memory. -/
def gpuBugProvider : ProviderData :=
  { cpu := ⟨"Intel", "Core i7", 3, 8, 4, 1⟩
    gpuController0 := ⟨"NVIDIA", "RTX 3060", 1024, 1024, 1024⟩
    mem := ⟨8 * 1024 ^ 3, 4 * 1024 ^ 3⟩
    disk0 := ⟨512 * 1024 ^ 3, "SSD"⟩
    net0 := ⟨10, "eth0"⟩
    tempMax := 0
    tempCoresLen := 0
    tempSocket := fun _ => none }

/-- A system snapshot that passes all three validation groups. -/
def validInfo : SystemInfo :=
  { cpu := ⟨"Intel", "Core i7", 3, 8, 4, 1, []⟩
    gpu := ⟨"NVIDIA", "RTX 3060", 8192, 2048, 6144⟩
    ram := ⟨16, 8, 8⟩
    disk := ⟨512, "SSD"⟩
    network := ⟨10, "eth0"⟩ }

/-- A system snapshot with an empty CPU manufacturer. -/
def emptyManufacturerInfo : SystemInfo :=
  { cpu := ⟨"", "Core i7", 3, 8, 4, 1, []⟩
    gpu := ⟨"NVIDIA", "RTX 3060", 8192, 2048, 6144⟩
    ram := ⟨16, 8, 8⟩
    disk := ⟨512, "SSD"⟩
    network := ⟨10, "eth0"⟩ }

/-- A worker pool in which worker 0 raises and every other worker
replies 1. -/
def failingWorker : Nat → Except WorkerError ℚ :=
  fun i => if i = 0 then Except.error ⟨"worker 0 failed"⟩ else Except.ok 1

/-- The report assembled by `testAll` from `validInfo` and a multithread
sum of 5. -/
def sampleReport : PerformanceTestResult :=
  { cpuFrequency := 3
    gpuPerformance := 100
    ramSpeed := 3200
    diskSpeed := 500
    multiThreadPerformance := 5 }

/-! ## Claims -/

/-- C1: for every core count N >= 1 and every assignment of numeric
results to the N workers, `testMultiThreadPerformance` returns exactly
the sum of the N per-worker results. -/
theorem multiThread_returns_sum (N : Nat) (r : Nat → ℚ) (hN : 1 ≤ N) :
    testMultiThreadPerformance N (fun i => Except.ok (r i)) =
      Except.ok (∑ i in Finset.range N, r i) := by
  rw [testMultiThread_ok_sum, effectiveCores_of_pos N hN]

/-- C1 witness: with 8 workers each returning 437 the call returns
exactly 3496 = 8 * 437. -/
theorem multiThread_returns_sum_witness :
    1 ≤ 8 ∧
      testMultiThreadPerformance 8 (fun _ => Except.ok (437 : ℚ)) =
        Except.ok (3496 : ℚ) := by
  have h := multiThread_returns_sum 8 (fun _ => (437 : ℚ)) (by norm_num)
  norm_num [Finset.sum_const] at h
  exact ⟨by norm_num, h⟩

/-- C2: the orchestrator spawns exactly N workers, N being the
provider-reported logical core count with 1 as the default for a falsy
count, and the input message of the i-th spawned worker is its own
index i. -/
theorem multiThread_spawn_indices (cores : Nat) :
    (cores = 0 → effectiveCores cores = 1) ∧
    (cores ≠ 0 → effectiveCores cores = cores) ∧
    (spawnIndices (effectiveCores cores)).length = effectiveCores cores ∧
    (∀ i, i < effectiveCores cores →
      (spawnIndices (effectiveCores cores))[i]? = some i) := by
  refine ⟨fun h => by simp [effectiveCores, h], fun h => by simp [effectiveCores, h], ?_, ?_⟩
  · rw [spawnIndices_eq_range, List.length_range]
  · intro i hi
    rw [spawnIndices_eq_range]
    exact List.getElem?_range hi

/-- C2 witness: with a falsy core count one worker is spawned; with 8
cores there are 8 spawns and the fourth spawned worker gets message 3. -/
theorem multiThread_spawn_indices_witness :
    effectiveCores 0 = 1 ∧ effectiveCores 8 = 8 ∧
      (spawnIndices (effectiveCores 8)).length = 8 ∧
      (spawnIndices (effectiveCores 8))[3]? = some 3 := by
  refine ⟨(multiThread_spawn_indices 0).1 rfl,
    (multiThread_spawn_indices 8).2.1 (by norm_num), ?_, ?_⟩
  · have h := (multiThread_spawn_indices 8).2.2.1
    rwa [(multiThread_spawn_indices 8).2.1 (by norm_num)] at h
  · exact (multiThread_spawn_indices 8).2.2.2 3 (by decide)

/-- C3: if any one of the spawned workers raises, the whole
`testMultiThreadPerformance` call rejects; no partial sum is returned. -/
theorem multiThread_rejects_on_worker_error (cores j : Nat)
    (worker : Nat → Except WorkerError ℚ) (e : WorkerError)
    (hj : j < effectiveCores cores) (he : worker j = Except.error e) :
    isRejection (testMultiThreadPerformance cores worker) = true := by
  have hmem : j ∈ spawnIndices (effectiveCores cores) := by
    rw [spawnIndices_eq_range]
    exact List.mem_range.mpr hj
  rcases collectAll_error_of_mem worker _ j e hmem he with ⟨e2, h2⟩
  unfold testMultiThreadPerformance
  rw [h2]
  rfl

/-- C3 witness: with two cores and worker 0 raising, the aggregate call
rejects. -/
theorem multiThread_rejects_on_worker_error_witness :
    isRejection (testMultiThreadPerformance 2 failingWorker) = true :=
  multiThread_rejects_on_worker_error 2 0 failingWorker ⟨"worker 0 failed"⟩
    (by decide) rfl

/-- C4: for every integer input x, the worker task runs its fixed
10^10-iteration loop accumulating i + x and returns exactly
10^10 * x + 49999999995000000000. -/
theorem performTask_exact (x : ℤ) :
    performTask (x : ℚ) = 10 ^ 10 * (x : ℚ) + 49999999995000000000 := by
  have h := loopSum_closed (x : ℚ) (10 ^ 10)
  have hk : ((10 ^ 10 : Nat) : ℚ) = 10 ^ 10 := by push_cast; ring
  rw [hk] at h
  unfold performTask
  norm_num at h ⊢
  linarith

/-- C5: the reported RAM `used` is derived as (total - free) / 1024^3,
so used + free = total in the report; with total 16384 MB and free
8192 MB the reported used is 8192 MB (= 8 GB). -/
theorem ram_used_is_total_minus_free (p : ProviderData) :
    (getSystemInfo p).ram.used = (p.mem.total - p.mem.free) / 1024 ^ 3 ∧
    (getSystemInfo p).ram.used + (getSystemInfo p).ram.free =
      (getSystemInfo p).ram.total ∧
    (p.mem.total = 16384 * 1024 ^ 2 ∧ p.mem.free = 8192 * 1024 ^ 2 →
      (getSystemInfo p).ram.used = 8192 * 1024 ^ 2 / 1024 ^ 3) := by
  refine ⟨rfl, ?_, ?_⟩
  · show (p.mem.total - p.mem.free) / 1024 ^ 3 + p.mem.free / 1024 ^ 3 =
      p.mem.total / 1024 ^ 3
    ring
  · rintro ⟨h1, h2⟩
    show (p.mem.total - p.mem.free) / 1024 ^ 3 = 8192 * 1024 ^ 2 / 1024 ^ 3
    rw [h1, h2]
    norm_num

/-- C5 witness: on a provider response with total 16384 MB and free
8192 MB, the reported used is exactly 8192 MB, i.e. 8 GB. -/
theorem ram_used_is_total_minus_free_witness :
    (getSystemInfo ramSampleProvider).ram.used = 8192 * 1024 ^ 2 / 1024 ^ 3 ∧
      (8192 * 1024 ^ 2 / 1024 ^ 3 : ℚ) = 8 := by
  refine ⟨(ram_used_is_total_minus_free ramSampleProvider).2.2 ⟨rfl, rfl⟩, by norm_num⟩

/-- C6: validation fails exactly when one of the listed CPU, GPU or RAM
conditions is violated, reports the first violated group in the order
CPU, GPU, RAM, and on failure the multithread benchmark is never
reached. -/
theorem validate_first_violation (info : SystemInfo) (bench : Except WorkerError ℚ) :
    ((∃ e, validate info = Except.error e) ↔
      cpuDataInvalid info ∨ gpuDataInvalid info ∨ ramDataInvalid info) ∧
    (cpuDataInvalid info →
      validate info = Except.error ValidationError.invalidCpu) ∧
    (¬cpuDataInvalid info → gpuDataInvalid info →
      validate info = Except.error ValidationError.invalidGpu) ∧
    (¬cpuDataInvalid info → ¬gpuDataInvalid info → ramDataInvalid info →
      validate info = Except.error ValidationError.invalidRam) ∧
    (∀ e, validate info = Except.error e →
      (testAllBody (Except.ok info) bench).benchRan = false) := by
  refine ⟨⟨?_, ?_⟩, ?_, ?_, ?_, ?_⟩
  · rintro ⟨e, he⟩
    unfold validate at he
    split_ifs at he with h1 h2 h3
    · exact Or.inl h1
    · exact Or.inr (Or.inl h2)
    · exact Or.inr (Or.inr h3)
  · rintro (h | h | h)
    · exact ⟨ValidationError.invalidCpu, by unfold validate; rw [if_pos h]⟩
    · by_cases hc : cpuDataInvalid info
      · exact ⟨ValidationError.invalidCpu, by unfold validate; rw [if_pos hc]⟩
      · exact ⟨ValidationError.invalidGpu, by unfold validate; rw [if_neg hc, if_pos h]⟩
    · by_cases hc : cpuDataInvalid info
      · exact ⟨ValidationError.invalidCpu, by unfold validate; rw [if_pos hc]⟩
      · by_cases hg : gpuDataInvalid info
        · exact ⟨ValidationError.invalidGpu, by unfold validate; rw [if_neg hc, if_pos hg]⟩
        · exact ⟨ValidationError.invalidRam, by
            unfold validate; rw [if_neg hc, if_neg hg, if_pos h]⟩
  · intro h
    unfold validate
    rw [if_pos h]
  · intro hc hg
    unfold validate
    rw [if_neg hc, if_pos hg]
  · intro hc hg hr
    unfold validate
    rw [if_neg hc, if_neg hg, if_pos hr]
  · intro e he
    simp [testAllBody, he]

/-- C6 witness: a snapshot with an empty CPU manufacturer fails
validation with the CPU error, and the benchmark does not run. -/
theorem validate_first_violation_witness :
    validate emptyManufacturerInfo = Except.error ValidationError.invalidCpu ∧
      (testAllBody (Except.ok emptyManufacturerInfo) (Except.ok 5)).benchRan = false := by
  have h := validate_first_violation emptyManufacturerInfo (Except.ok 5)
  have hc : cpuDataInvalid emptyManufacturerInfo := Or.inl rfl
  exact ⟨h.2.1 hc, h.2.2.2.2 ValidationError.invalidCpu (h.2.1 hc)⟩

/-- C7: the code does NOT divide the GPU memory fields by 1024, contrary
to the claim and to the comment in the source: `x || 0 / 1024` parses as
`x || (0 / 1024)`, so the raw MB value is passed through.  The RAM and
disk byte fields, in contrast, are divided by 1024^3 as claimed.  With a
provider reporting 1024 MB of GPU memory the report contains 1024, not
1024 / 1024 = 1. -/
theorem gpu_memory_not_converted :
    (getSystemInfo gpuBugProvider).gpu.memoryTotal = 1024 ∧
      (getSystemInfo gpuBugProvider).gpu.memoryTotal ≠ 1024 / 1024 ∧
      (getSystemInfo gpuBugProvider).gpu.memoryUsed = 1024 ∧
      (getSystemInfo gpuBugProvider).gpu.memoryFree = 1024 ∧
      (getSystemInfo gpuBugProvider).ram.total = 8 ∧
      (getSystemInfo gpuBugProvider).ram.free = 4 ∧
      (getSystemInfo gpuBugProvider).disk.size = 512 := by
  refine ⟨?_, ?_, ?_, ?_, ?_, ?_, ?_⟩ <;>
    norm_num [getSystemInfo, jsOr, gpuBugProvider]

/-- C8: every assembled report carries the fixed constants
gpuPerformance = 100, ramSpeed = 3200 and diskSpeed = 500, its
cpuFrequency is the retrieved cpu.speed, its multiThreadPerformance is
the measured sum and is positive; a non-positive measured sum is
rejected before assembly. -/
theorem report_fixed_constants (infoRes : Except ProviderError SystemInfo)
    (bench : Except WorkerError ℚ) :
    (∀ r, (testAllBody infoRes bench).outcome = Except.ok r →
      r.gpuPerformance = 100 ∧ r.ramSpeed = 3200 ∧ r.diskSpeed = 500 ∧
      (∃ info, infoRes = Except.ok info ∧ r.cpuFrequency = info.cpu.speed) ∧
      bench = Except.ok r.multiThreadPerformance ∧
      0 < r.multiThreadPerformance) ∧
    (∀ info m, infoRes = Except.ok info → validate info = Except.ok () →
      bench = Except.ok m → m ≤ 0 →
      (testAllBody infoRes bench).outcome =
        Except.error TestError.invalidPerformance) := by
  constructor
  · intro r hr
    cases infoRes with
    | error e => simp [testAllBody] at hr
    | ok info =>
      cases hv : validate info with
      | error e => simp [testAllBody, hv] at hr
      | ok u =>
        cases bench with
        | error e => simp [testAllBody, hv] at hr
        | ok m =>
          by_cases hm : m ≤ 0
          · simp [testAllBody, hv, hm] at hr
          · simp only [testAllBody, hv, if_neg hm] at hr
            rw [Except.ok.injEq] at hr
            subst hr
            exact ⟨rfl, rfl, rfl, ⟨info, rfl, rfl⟩, rfl, lt_of_not_le hm⟩
  · rintro info m rfl hv rfl hm
    simp [testAllBody, hv, hm]

/-- C8 witness: from a valid snapshot and a measured sum of 5 the
assembled report is exactly the placeholder record with cpuFrequency 3
(the speed field of the snapshot) and multiThreadPerformance 5 > 0. -/
theorem report_fixed_constants_witness :
    (testAllBody (Except.ok validInfo) (Except.ok 5)).outcome =
        Except.ok sampleReport ∧
      sampleReport.gpuPerformance = 100 ∧ sampleReport.ramSpeed = 3200 ∧
      sampleReport.diskSpeed = 500 ∧
      sampleReport.cpuFrequency = validInfo.cpu.speed ∧
      0 < sampleReport.multiThreadPerformance := by
  have houtcome : (testAllBody (Except.ok validInfo) (Except.ok 5)).outcome =
      Except.ok sampleReport := by
    rfl
  have h := (report_fixed_constants (Except.ok validInfo) (Except.ok 5)).1
    sampleReport houtcome
  exact ⟨houtcome, h.1, h.2.1, h.2.2.1, rfl, h.2.2.2.2.2⟩

/-- C9: `testAll` never rejects: whatever the hardware query, validation
and benchmark produce, any thrown error is caught and logged and the
promise resolves with void. -/
theorem testAll_always_resolves (infoRes : Except ProviderError SystemInfo)
    (bench : Except WorkerError ℚ) :
    ((∃ r, (testAllBody infoRes bench).outcome = Except.ok r ∧
        testAll infoRes bench = PromiseOutcome.resolved none) ∨
      (∃ e, (testAllBody infoRes bench).outcome = Except.error e ∧
        testAll infoRes bench = PromiseOutcome.resolved (some e))) ∧
    (∀ e, testAll infoRes bench ≠ PromiseOutcome.rejected e) := by
  constructor
  · cases h : (testAllBody infoRes bench).outcome with
    | ok r => exact Or.inl ⟨r, rfl, by simp [testAll, h]⟩
    | error e => exact Or.inr ⟨e, rfl, by simp [testAll, h]⟩
  · intro e
    cases h : (testAllBody infoRes bench).outcome with
    | ok r => simp [testAll, h]
    | error e2 => simp [testAll, h]

/-- C10: with the shipped worker task on indices 0..N-1 the multithread
sum is strictly positive for every provider-reported core count, so the
branch of `testAll` that throws on a non-positive multithread sum is
unreachable. -/
theorem shipped_bench_positive (cores : Nat)
    (infoRes : Except ProviderError SystemInfo) :
    (∃ s, testMultiThreadPerformance cores
        (fun i => Except.ok (performTask (i : ℚ))) = Except.ok s ∧ 0 < s) ∧
      (testAllBody infoRes
          (testMultiThreadPerformance cores
            (fun i => Except.ok (performTask (i : ℚ))))).outcome ≠
        Except.error TestError.invalidPerformance := by
  have hpos : 0 < ∑ i in Finset.range (effectiveCores cores), performTask (i : ℚ) := by
    apply Finset.sum_pos
    · intro i _
      exact performTask_pos i
    · have h1 := one_le_effectiveCores cores
      exact Finset.nonempty_range_iff.mpr (by omega)
  have hsum := testMultiThread_ok_sum cores (fun i => performTask (i : ℚ))
  refine ⟨⟨_, hsum, hpos⟩, ?_⟩
  rw [hsum]
  cases infoRes with
  | error e => simp [testAllBody]
  | ok info =>
    cases hv : validate info with
    | error e2 => simp [testAllBody, hv]
    | ok u =>
      have hne : ¬(∑ i in Finset.range (effectiveCores cores),
          performTask (i : ℚ)) ≤ 0 := not_le.mpr hpos
      simp [testAllBody, hv, hne]
